import Mathlib

/-!
# Verification of the PULSE-PARCEL order lifecycle subsystem

This file gives a shallow embedding of the order-management core of the
repository (the `orderController` in `src/unnamed/part_002`, the `Order`
mongoose model in `src/models/Order.js`, and the routes/relay code around
them), and proves or refutes the frozen claims about it.

Modelling conventions:
* Mongo ObjectIds are `Nat`; an invalid/missing ObjectId is `Option.none`.
* JS numbers that hold money or quantities are `Int` (they are integral in
  every code path of this subsystem).
* A field that the schema marks `required` but that a legacy document might
  lack (`subtotal`, `total`) is `Option Int`; the JS falsy test `!x`
  identifies `none` (undefined) and `some 0` (the number `0`).
* The database is explicit state (`DB`); each controller is a pure function
  from the request and the database to a result carrying the response, the
  new database and a trace of observable effects (stock writes, saves,
  socket emissions, notifications) in the order the source performs them.
* The fallibility of `order.save()` and `cart.save()` is an explicit boolean
  input (`saveOk` / `cartSaveOk`), standing for the backing store accepting
  or rejecting the write; all other reads are deterministic on `DB`.
-/

namespace PulseParcel

/-- An order line item, `{product, quantity, price}` as validated and stored
by `createOrder` (`src/unnamed/part_002`). -/
structure OrderItem where
  product : Nat
  quantity : Int
  price : Int
  deriving DecidableEq, Repr

/-- The authenticated requester context `req.user` supplied by the auth
middleware: `{_id, isAdmin}`. -/
structure ReqUser where
  _id : Nat
  isAdmin : Bool
  deriving DecidableEq, Repr

/-- A product document; the order core only reads `name`/`stock` and
decrements `stock`. -/
structure ProductRec where
  _id : Nat
  name : String
  stock : Int
  deriving DecidableEq, Repr

/-- An address document (`src/models/Address.js`); the order core reads
`user`, `state`, `country`. -/
structure AddressRec where
  _id : Nat
  user : Nat
  state : String
  country : String
  deriving DecidableEq, Repr

/-- A cart document: `{_id, user, items}`. -/
structure CartRec where
  _id : Nat
  user : Nat
  items : List OrderItem
  deriving DecidableEq, Repr

/-- One tracking entry `{status, date}` (`src/models/Order.js` lines 31-34). -/
structure TrackEntry where
  status : String
  date : Nat
  deriving DecidableEq, Repr

/-- The in-memory mongoose `Order` document as the controllers see it.

All fields except `deliveredAt` are schema paths of `orderSchema`
(`src/models/Order.js` lines 3-37).  `deliveredAt` is NOT declared in the
schema; `updateOrderStatus` nevertheless assigns `order.deliveredAt`, which
on a JS object simply creates an own property.  `strictSave` below models
what mongoose persists. -/
structure OrderDoc where
  _id : Nat
  user : Nat
  addressId : Option Nat
  items : List OrderItem
  subtotal : Option Int
  deliveryFee : Option Int
  total : Option Int
  status : String
  paymentMethod : String
  paymentStatus : String
  orderNotes : String
  tracking : List TrackEntry
  createdAt : Nat
  orderNumber : String
  deliveredAt : Option Nat
  deriving DecidableEq, Repr

/-- The backing store visible to the order core. -/
structure DB where
  products : List ProductRec
  orders : List OrderDoc
  addresses : List AddressRec
  carts : List CartRec
  deriving DecidableEq, Repr

/-- Observable side-effects of the controllers, in program order. -/
inductive Effect where
  | decStock (pid : Nat) (qty : Int)
  | orderSaved (oid : Nat)
  | cartCleared (uid : Nat)
  | emitAdmin (event : String)
  | emitUser (uid : Nat) (event : String)
  | notifyUser (uid : Nat)
  deriving DecidableEq, Repr

/-- The schema paths declared by `orderSchema` in `src/models/Order.js`
(lines 3-37).  Note that `deliveredAt` is absent. -/
def orderSchemaPaths : List String :=
  ["user", "addressId", "items", "subtotal", "deliveryFee", "total",
   "status", "paymentMethod", "paymentStatus", "paymentReference",
   "orderNotes", "tracking", "createdAt", "orderNumber"]

/-- Mongoose strict-mode save: only schema paths are persisted; the
`deliveredAt` own property is dropped unless it is a schema path. -/
def strictSave (o : OrderDoc) : OrderDoc :=
  if orderSchemaPaths.contains "deliveredAt" then o
  else { o with deliveredAt := none }

/-- JS falsiness of a possibly-missing number (`!x` is true for
`undefined` and for `0`). -/
def jsFalsyOpt : Option Int → Bool
  | none => true
  | some v => v == 0

/-- JS `s.trim()`: strip whitespace from both ends (structural, so that it
evaluates inside the kernel). -/
def jsTrim (s : String) : String :=
  String.mk (((s.data.dropWhile Char.isWhitespace).reverse.dropWhile
    Char.isWhitespace).reverse)

/-- JS `x || d` on a possibly-missing number. -/
def jsOr (x : Option Int) (d : Int) : Int :=
  match x with
  | none => d
  | some v => if v == 0 then d else v

/-- `items.reduce((sum, item) => sum + item.price * item.quantity, 0)`. -/
def computeSubtotal (items : List OrderItem) : Int :=
  items.foldl (fun s it => s + it.price * it.quantity) 0

/-- `(count + 1).toString().padStart(6, '0')` (for the order-number hook). -/
def padStart6 (n : Nat) : String :=
  let s := toString n
  String.mk (List.replicate (6 - s.length) '0') ++ s

/-- The candidate order number the pre-save hook derives from the current
order count (`src/models/Order.js` line 49). -/
def candidateNumber (orderCount : Nat) : String :=
  "ORD-" ++ padStart6 (orderCount + 1)

/-- `Product.findById(pid)`. -/
def lookupProduct (ps : List ProductRec) (pid : Nat) : Option ProductRec :=
  ps.find? (fun p => p._id == pid)

/-- Total quantity of product `pid` ordered across `items`
(the `Σ(ordered quantities)` of the spec). -/
def orderedQty : List OrderItem → Nat → Int
  | [], _ => 0
  | it :: rest, pid =>
      (if it.product == pid then it.quantity else 0) + orderedQty rest pid

/-- One `Product.findByIdAndUpdate(item.product, { $inc: { stock: -item.quantity } })`. -/
def dec1 (it : OrderItem) (ps : List ProductRec) : List ProductRec :=
  ps.map (fun p =>
    if p._id == it.product then { p with stock := p.stock - it.quantity } else p)

/-- The stock-decrement loop of `createOrder` (`src/unnamed/part_002`
lines 98-101), applied item by item in order. -/
def decAll (ps : List ProductRec) : List OrderItem → List ProductRec
  | [] => ps
  | it :: rest => decAll (dec1 it ps) rest

/-- `order.tracking[order.tracking.length - 1]?.status`. -/
def lastStatus (tr : List TrackEntry) : Option String :=
  tr.getLast?.map (fun e => e.status)

def validPaymentMethods : List String :=
  ["Pay on Delivery", "Card Payment", "Bank Transfer", "Paystack"]

def validStatuses : List String :=
  ["Placed", "Packed", "In Transit", "Delivered", "Cancelled"]

/-- The stock-sufficiency guard of `createOrder` (`src/unnamed/part_002`
lines 41-47): for each requested item, the product (looked up among the
products fetched by `$in`) must have `stock ≥ quantity`. -/
def insufficientStock (ps : List ProductRec) (items : List OrderItem) : Bool :=
  let productIds := items.map (fun it => it.product)
  let products := ps.filter (fun p => productIds.contains p._id)
  items.any (fun it =>
    match products.find? (fun p => p._id == it.product) with
    | some p => decide (p.stock < it.quantity)
    | none => true)

/-- The validation prefix of `createOrder` (`src/unnamed/part_002`
lines 15-66), returning the first error response it would send, or `none`
when all validations pass.  Item `product` ids are modelled as `Nat`
(always valid ObjectIds); the `deliveryAddress` ObjectId-validity check is
the `Option`. -/
def createValidate (db : DB) (user : ReqUser) (items : List OrderItem)
    (deliveryAddress : Option Nat) (paymentMethod : String) :
    Option (Nat × String) :=
  if ¬ validPaymentMethods.contains paymentMethod then
    some (400, "Invalid payment method")
  else if items.isEmpty then
    some (400, "Items array is required and must not be empty")
  else if items.any (fun it => it.quantity < 1 || it.price < 0) then
    some (400, "Each item must have a valid product ID, quantity (>= 1), and price (>= 0)")
  else if (db.products.filter
      (fun p => (items.map (fun it => it.product)).contains p._id)).length
      ≠ (items.map (fun it => it.product)).length then
    some (400, "One or more products not found")
  else if insufficientStock db.products items then
    some (400, "Insufficient stock for product")
  else
    match deliveryAddress with
    | none => some (400, "Invalid delivery address: must be a valid ObjectId")
    | some addrId =>
      match db.addresses.find? (fun a => a._id == addrId) with
      | none => some (404, "Delivery address not found")
      | some address =>
        if address.user ≠ user._id then
          some (403, "Delivery address does not belong to the user")
        else if address.state = "" || address.country = "" then
          some (400, "Delivery address is invalid (missing state or country)")
        else none

/-- Result of `createOrder`: a 201 with the (re-fetched) order, an error
response, or non-termination of the pre-save hook (see `hookRun`). -/
inductive CreateResult where
  | ok (order : OrderDoc) (db : DB) (trace : List Effect)
  | err (code : Nat) (msg : String) (db : DB) (trace : List Effect)
  | hang
  deriving DecidableEq, Repr

/-- The tail of a successful `createOrder`: populate the saved order and
emit `newOrder` to `adminRoom`, `orderStatusUpdate` to the owner's channel,
then `createNotification` for the owner (`src/unnamed/part_002`
lines 130-160), answering 201. -/
def finishCreate (user : ReqUser) (saved : OrderDoc) (db : DB)
    (t : List Effect) : CreateResult :=
  .ok saved db
    (t ++ [Effect.emitAdmin "newOrder",
           Effect.emitUser user._id "orderStatusUpdate",
           Effect.notifyUser user._id])

/-- `exports.createOrder` of `src/unnamed/part_002` (lines 10-165).

`newId` is the ObjectId the store assigns to the new order, `now` the
clock.  `saveOk` models `order.save()` succeeding; `cartSaveOk` models
`cart.save()` succeeding during the cart-clear step.  The pre-save hook of
`src/models/Order.js` assigns the order number; on a candidate collision
that hook never terminates (`hang`, see `hookRun`/`hookStep` below for the
faithful loop). -/
def createOrder (db : DB) (user : ReqUser) (items : List OrderItem)
    (deliveryAddress : Option Nat) (paymentMethod : String)
    (orderNotes : String) (newId : Nat) (now : Nat)
    (saveOk : Bool) (cartSaveOk : Bool) : CreateResult :=
  match createValidate db user items deliveryAddress paymentMethod with
  | some (c, m) => .err c m db []
  | none =>
    let subtotal := computeSubtotal items
    let deliveryFee : Int := 5000
    let total := subtotal + deliveryFee
    let order : OrderDoc :=
      { _id := newId, user := user._id, addressId := deliveryAddress,
        items := items, subtotal := some subtotal,
        deliveryFee := some deliveryFee, total := some total,
        status := "Placed", paymentMethod := paymentMethod,
        paymentStatus := "pending", orderNotes := jsTrim orderNotes,
        tracking := [], createdAt := now, orderNumber := "",
        deliveredAt := none }
    -- stock decrement loop, before `order.save()` as in the source
    let db1 : DB := { db with products := decAll db.products items }
    let decTrace := items.map (fun it => Effect.decStock it.product it.quantity)
    -- `order.save()`: the pre-save hook derives the candidate number
    let candidate := candidateNumber db1.orders.length
    if db1.orders.any (fun o => o.orderNumber == candidate) then .hang
    else if ¬ saveOk then .err 400 "order save failed" db1 decTrace
    else
      let saved := strictSave { order with orderNumber := candidate }
      let db2 : DB := { db1 with orders := db1.orders ++ [saved] }
      let t1 := decTrace ++ [Effect.orderSaved newId]
      -- cart clearing, wrapped in its own try/catch (lines 107-128)
      match db2.carts.find? (fun cr => cr.user == user._id) with
      | none => finishCreate user saved db2 t1
      | some cr =>
        if cartSaveOk then
          let db3 : DB :=
            { db2 with carts := db2.carts.map (fun c2 =>
                if c2._id == cr._id then { c2 with items := [] } else c2) }
          finishCreate user saved db3 (t1 ++ [Effect.cartCleared user._id])
        else
          -- cart.save() failed: caught, systemAlert to adminRoom, continue
          finishCreate user saved db2 (t1 ++ [Effect.emitAdmin "systemAlert"])

/-- Result of `updateOrderStatus` / `deleteOrder`. -/
inductive UpdResult where
  | ok (order : OrderDoc) (db : DB) (trace : List Effect)
  | err (code : Nat) (msg : String) (db : DB) (trace : List Effect)
  deriving DecidableEq, Repr

/-- The self-healing block of `updateOrderStatus` (`src/unnamed/part_002`
lines 230-246): recompute a falsy `subtotal` from the items, recompute a
falsy `total` as `subtotal + (deliveryFee || 5000)`, and substitute the
owner's first address when `addressId` is missing/invalid; `none` when no
address can be found (the 400 branch). -/
def healSubtotal (o : OrderDoc) : OrderDoc :=
  if jsFalsyOpt o.subtotal then
    { o with subtotal := some (computeSubtotal o.items) }
  else o

def healTotal (o : OrderDoc) : OrderDoc :=
  if jsFalsyOpt o.total then
    { o with total := some (o.subtotal.getD 0 + jsOr o.deliveryFee 5000) }
  else o

def healAddress (db : DB) (o : OrderDoc) : Option OrderDoc :=
  match o.addressId with
  | some _ => some o
  | none =>
      (db.addresses.find? (fun a => a.user == o.user)).map
        (fun a => { o with addressId := some a._id })

def healOrder (db : DB) (o : OrderDoc) : Option OrderDoc :=
  healAddress db (healTotal (healSubtotal o))

/-- The status mutation of `updateOrderStatus` (`src/unnamed/part_002`
lines 248-252): set `status`, push a tracking entry unless the last entry
already carries `status`, and assign `deliveredAt` on `Delivered`. -/
def applyStatus (o : OrderDoc) (status : String) (now : Nat) : OrderDoc :=
  let o1 := { o with status := status }
  let o2 := if lastStatus o1.tracking ≠ some status then
      { o1 with tracking := o1.tracking ++ [⟨status, now⟩] } else o1
  if status == "Delivered" then { o2 with deliveredAt := some now } else o2

/-- `exports.updateOrderStatus` of `src/unnamed/part_002` (lines 211-280).
The response order is the post-save re-fetch (`Order.findById` after
`order.save()`), i.e. the strictly-saved document. -/
def updateOrderStatus (db : DB) (user : ReqUser) (orderId : Nat)
    (status : String) (now : Nat) (saveOk : Bool) : UpdResult :=
  if ¬ user.isAdmin then .err 403 "Admin access required" db []
  else if ¬ validStatuses.contains status then
    .err 400 "Invalid status" db []
  else
    match db.orders.find? (fun o => o._id == orderId) with
    | none => .err 404 "Order not found" db []
    | some o =>
      match healOrder db o with
      | none => .err 400 "Cannot update order: no valid address found for user" db []
      | some oh =>
        let o6 := applyStatus oh status now
        if ¬ saveOk then .err 400 "order save failed" db []
        else
          let saved := strictSave o6
          let db2 : DB :=
            { db with orders := db.orders.map (fun x =>
                if x._id == orderId then saved else x) }
          let t1 : List Effect := [Effect.orderSaved orderId]
          let t2 := if status == "Packed" then t1 ++ [Effect.notifyUser saved.user]
            else t1
          .ok saved db2
            (t2 ++ [Effect.emitAdmin "orderStatusUpdate",
                    Effect.emitUser saved.user "orderStatusUpdate"])

/-- `exports.getOrder` of `src/unnamed/part_002` (lines 197-209). -/
def getOrder (db : DB) (user : ReqUser) (orderId : Nat) :
    Except (Nat × String) OrderDoc :=
  match db.orders.find? (fun o => o._id == orderId) with
  | none => .error (404, "Order not found")
  | some o =>
      if ¬ user.isAdmin ∧ o.user ≠ user._id then .error (403, "Unauthorized")
      else .ok o

/-- `exports.trackOrder` of `src/unnamed/part_002` (lines 632-645). -/
def trackOrder (db : DB) (user : ReqUser) (orderNumber : String) :
    Except (Nat × String) OrderDoc :=
  match db.orders.find? (fun o => o.orderNumber == orderNumber) with
  | none => .error (404, "Order not found")
  | some o =>
      if ¬ user.isAdmin ∧ o.user ≠ user._id then .error (403, "Unauthorized")
      else .ok o

/-- `exports.deleteOrder` of `src/unnamed/part_002` (lines 282-293). -/
def deleteOrder (db : DB) (user : ReqUser) (orderId : Nat) : UpdResult :=
  if ¬ user.isAdmin then .err 403 "Admin access required" db []
  else
    match db.orders.find? (fun o => o._id == orderId) with
    | none => .err 404 "Order not found" db []
    | some o =>
        .ok o { db with orders := db.orders.filter (fun x => ¬ x._id == orderId) }
          [Effect.emitAdmin "orderStatusUpdate"]

/-! ## The order-number pre-save hook (`src/models/Order.js` lines 40-67)

The hook runs `while (!isUnique && attempts < maxAttempts)`.  Each iteration
either succeeds against the store (returning the current document count and
whether the derived candidate collides with an existing `orderNumber`) or
throws.  Crucially, in the source `attempts++` and the 100ms delay sit only
in the `catch` block: a collision (the `findOne` finds an existing order)
changes neither `attempts` nor anything else the loop reads. -/

/-- What one iteration of the hook observes from the store: a thrown error,
or the document count together with whether the derived candidate number
already exists. -/
inductive AttemptOutcome where
  | throws
  | ok (count : Nat) (collides : Bool)
  deriving DecidableEq, Repr

/-- `maxAttempts = 3` in the hook. -/
def maxAttempts : Nat := 3

/-- Loop state of the hook: the `attempts` counter and the index of the next
store interaction. -/
structure HookState where
  attempts : Nat
  iter : Nat
  deriving DecidableEq, Repr

/-- Outcome of the hook: the assigned order number, or
`next(new Error('Failed to generate unique order number after multiple attempts'))`. -/
inductive HookResult where
  | assigned (num : String)
  | exhausted
  deriving DecidableEq, Repr

/-- One iteration of the hook's `while` loop.  On `.ok count collides`:
derive the candidate from `count + 1`; if it does not collide, finish with
it; if it collides, loop again (no counter change, no delay).  On
`.throws`: `attempts++`, fail when `attempts >= maxAttempts`, otherwise
wait 100ms and loop. -/
def hookStep (b : Nat → AttemptOutcome) (s : HookState) :
    HookResult ⊕ HookState :=
  match b s.iter with
  | .ok count collides =>
      if collides then Sum.inr { s with iter := s.iter + 1 }
      else Sum.inl (HookResult.assigned (candidateNumber count))
  | .throws =>
      if s.attempts + 1 ≥ maxAttempts then Sum.inl HookResult.exhausted
      else Sum.inr { attempts := s.attempts + 1, iter := s.iter + 1 }

/-- Run the hook loop for at most `fuel` iterations; `none` means the loop
is still running after `fuel` iterations. -/
def hookRun (b : Nat → AttemptOutcome) : Nat → HookState → Option HookResult
  | 0, _ => none
  | Nat.succ n, s =>
      match hookStep b s with
      | Sum.inl r => some r
      | Sum.inr s' => hookRun b n s'

/-- Loop state after `n` non-terminating iterations (stops early if the
loop exits). -/
def hookStateAfter (b : Nat → AttemptOutcome) : Nat → HookState → HookState
  | 0, s => s
  | Nat.succ n, s =>
      match hookStep b s with
      | Sum.inl _ => s
      | Sum.inr s' => hookStateAfter b n s'

/-- The store behaviour the hook observes over a fixed, otherwise idle
order collection: every `countDocuments`/`findOne` pair succeeds, the count
is the collection size, and the candidate collides exactly when some stored
order already carries it. -/
def dbBehavior (orders : List OrderDoc) : Nat → AttemptOutcome :=
  fun _ => AttemptOutcome.ok orders.length
    (orders.any (fun o => o.orderNumber == candidateNumber orders.length))

/-- A store behaviour in which every interaction throws. -/
def throwsBehavior : Nat → AttemptOutcome := fun _ => AttemptOutcome.throws

def hookStart : HookState := { attempts := 0, iter := 0 }

/-! ## Concrete fixtures -/

def prodA : ProductRec := { _id := 10, name := "A", stock := 5 }

def addr1 : AddressRec := { _id := 20, user := 1, state := "Lagos", country := "NG" }

def buyer : ReqUser := { _id := 1, isAdmin := false }

def otherBuyer : ReqUser := { _id := 2, isAdmin := false }

def adminUser : ReqUser := { _id := 99, isAdmin := true }

def cart1 : CartRec := { _id := 30, user := 1, items := [⟨10, 1, 1000⟩] }

def demoItems : List OrderItem := [{ product := 10, quantity := 2, price := 1000 }]

def demoDB : DB :=
  { products := [prodA], orders := [], addresses := [addr1], carts := [cart1] }

/-- The order `createOrder demoDB buyer demoItems …` persists (checked by
`rfl`-style theorems below). -/
def demoFreshOrder : OrderDoc :=
  { _id := 100, user := 1, addressId := some 20, items := demoItems,
    subtotal := some 2000, deliveryFee := some 5000, total := some 7000,
    status := "Placed", paymentMethod := "Pay on Delivery",
    paymentStatus := "pending", orderNotes := "", tracking := [],
    createdAt := 5, orderNumber := "ORD-000001", deliveredAt := none }

/-- `demoDB` after the demo creation: stock decremented, order stored, cart
cleared. -/
def demoDB2 : DB :=
  { products := [{ _id := 10, name := "A", stock := 3 }],
    orders := [demoFreshOrder], addresses := [addr1],
    carts := [{ _id := 30, user := 1, items := [] }] }

/-- A legacy/corrupted stored order: missing `subtotal`, `total`,
`deliveryFee` and `addressId` (exercises the self-healing path of
`updateOrderStatus`). -/
def legacyOrder : OrderDoc :=
  { _id := 50, user := 1, addressId := none, items := demoItems,
    subtotal := none, deliveryFee := none, total := none,
    status := "Placed", paymentMethod := "Pay on Delivery",
    paymentStatus := "pending", orderNotes := "",
    tracking := [⟨"Placed", 1⟩], createdAt := 1,
    orderNumber := "ORD-000009", deliveredAt := none }

def legacyDB : DB :=
  { products := [prodA], orders := [legacyOrder], addresses := [addr1],
    carts := [] }

/-- An order whose tracking log already ends with its current status
`"Packed"` (the shape the no-op guard of `updateOrderStatus` expects). -/
def packedOrder : OrderDoc :=
  { _id := 60, user := 1, addressId := some 20, items := demoItems,
    subtotal := some 2000, deliveryFee := some 5000, total := some 7000,
    status := "Packed", paymentMethod := "Pay on Delivery",
    paymentStatus := "pending", orderNotes := "",
    tracking := [⟨"Placed", 1⟩, ⟨"Packed", 2⟩], createdAt := 1,
    orderNumber := "ORD-000002", deliveredAt := none }

def packedDB : DB :=
  { products := [prodA], orders := [packedOrder], addresses := [addr1],
    carts := [] }

/-- A one-order store whose only order already carries the candidate the
hook would derive (`count = 1`, candidate `ORD-000002`): a persistent
collision. -/
def collideOrders : List OrderDoc :=
  [{ packedOrder with orderNumber := "ORD-000002" }]

/-- Projection helpers for stating closed counterexamples. -/
def createResultOrder : CreateResult → Option OrderDoc
  | .ok o _ _ => some o
  | _ => none

def createResultTrace : CreateResult → List Effect
  | .ok _ _ t => t
  | .err _ _ _ t => t
  | .hang => []

def updResultOrder : UpdResult → Option OrderDoc
  | .ok o _ _ => some o
  | _ => none

def updResultTrace : UpdResult → List Effect
  | .ok _ _ t => t
  | .err _ _ _ t => t

/-- Effects that constitute notification fan-out (socket emissions and
durable `createNotification`), as opposed to store writes. -/
def isNotifyEffect : Effect → Bool
  | .emitAdmin _ => true
  | .emitUser _ _ => true
  | .notifyUser _ => true
  | _ => false

/-- The demo creation of §8 of the spec: cart `[{product A, qty 2, price
1000}]`, a valid address, `Pay on Delivery`. -/
def demoCreateRun : CreateResult :=
  createOrder demoDB buyer demoItems (some 20) "Pay on Delivery" "" 100 5 true true

/-- `demoDB` after only the stock decrement (the state in which a failing
`order.save()` leaves the store). -/
def demoDBdec : DB :=
  { products := [{ _id := 10, name := "A", stock := 3 }], orders := [],
    addresses := [addr1], carts := [cart1] }

/-- The effect trace of the successful demo creation. -/
def demoCreateTrace : List Effect :=
  [Effect.decStock 10 2, Effect.orderSaved 100, Effect.cartCleared 1,
   Effect.emitAdmin "newOrder", Effect.emitUser 1 "orderStatusUpdate",
   Effect.notifyUser 1]

/-- The demo order after the `Placed → Delivered` transition. -/
def deliveredOrder : OrderDoc :=
  { demoFreshOrder with
    status := "Delivered"
    tracking := [⟨"Delivered", 9⟩] }

/-- `demoDB2` after persisting the `Delivered` transition. -/
def demoDB3 : DB :=
  { demoDB2 with orders := [deliveredOrder] }

/-- The effect trace of the demo status update. -/
def demoUpdTrace : List Effect :=
  [Effect.orderSaved 100, Effect.emitAdmin "orderStatusUpdate",
   Effect.emitUser 1 "orderStatusUpdate"]

/-! ## General lemmas about the embedding -/

/-- Searching the `$in`-filtered product list for an id that occurs among
the requested ids agrees with searching the whole product collection. -/
theorem find?_filter_of_contains (ps : List ProductRec) (ids : List Nat)
    (pid : Nat) (h : ids.contains pid = true) :
    (ps.filter (fun p => ids.contains p._id)).find? (fun p => p._id == pid)
      = ps.find? (fun p => p._id == pid) := by
  induction ps with
  | nil => rfl
  | cons q qs ih =>
    have hm : pid ∈ ids := by simpa using h
    rw [List.filter_cons]
    by_cases hcm : q._id ∈ ids
    · rw [if_pos (by simpa using hcm)]
      cases hq : (q._id == pid)
      · simp only [List.find?_cons, hq]; exact ih
      · simp only [List.find?_cons, hq]
    · rw [if_neg (by simpa using hcm), ih, List.find?_cons]
      cases hq : (q._id == pid)
      · simp
      · exact absurd (by rw [show q._id = pid from by simpa using hq]; exact hm) hcm

/-- Effect of a single `$inc` stock update on a product lookup. -/
theorem lookup_dec1 (it : OrderItem) (ps : List ProductRec) (pid : Nat) :
    lookupProduct (dec1 it ps) pid
      = (lookupProduct ps pid).map (fun p =>
          if pid == it.product then { p with stock := p.stock - it.quantity }
          else p) := by
  unfold lookupProduct dec1
  rw [List.find?_map]
  have hpred : ((fun p => p._id == pid) ∘ fun p =>
      if (p._id == it.product) = true
      then { p with stock := p.stock - it.quantity } else p)
      = fun p : ProductRec => p._id == pid := by
    funext p
    by_cases hp : p._id = it.product <;> simp [hp]
  rw [hpred]
  cases hx : ps.find? (fun p => p._id == pid) with
  | none => rfl
  | some p =>
    have hpid : p._id = pid := by simpa using List.find?_some hx
    by_cases hit : p._id = it.product
    · simp [hit, hpid ▸ hit]
    · have hit2 : ¬ pid = it.product := fun e => hit (hpid.trans e)
      simp [hit, hit2]

/-- Effect of the whole stock-decrement loop on a product lookup: each
product loses exactly the total quantity ordered for it. -/
theorem lookup_decAll (items : List OrderItem) (ps : List ProductRec)
    (pid : Nat) :
    lookupProduct (decAll ps items) pid
      = (lookupProduct ps pid).map (fun p =>
          { p with stock := p.stock - orderedQty items pid }) := by
  induction items generalizing ps with
  | nil =>
    cases h : lookupProduct ps pid <;> simp [decAll, orderedQty, h]
  | cons it rest ih =>
    rw [show decAll ps (it :: rest) = decAll (dec1 it ps) rest from rfl,
      ih (dec1 it ps), lookup_dec1, Option.map_map]
    cases h : lookupProduct ps pid with
    | none => simp
    | some p =>
      by_cases hit : it.product = pid
      · subst hit
        simp [orderedQty, Function.comp, sub_sub]
      · have hpid : (pid == it.product) = false :=
          beq_eq_false_iff_ne.mpr (fun e => hit e.symm)
        have hqty : (it.product == pid) = false := beq_eq_false_iff_ne.mpr hit
        simp [orderedQty, Function.comp, hpid, hqty]

/-- `strictSave` only clears `deliveredAt` (the sole non-schema path). -/
theorem strictSave_eq (o : OrderDoc) :
    strictSave o = { o with deliveredAt := none } := rfl

/-- What a successful `createOrder` produced: the saved order is the
strict save of the document built from the request (with the candidate
number derived from the pre-creation order count), the products are those
of the request store after the decrement loop, and the trace starts with
the decrement writes followed by the save. -/
theorem createOrder_ok_inv {db : DB} {user : ReqUser} {items : List OrderItem}
    {da : Option Nat} {pm notes : String} {newId now : Nat}
    {saveOk cartOk : Bool} {o : OrderDoc} {db2 : DB} {tr : List Effect}
    (h : createOrder db user items da pm notes newId now saveOk cartOk
          = .ok o db2 tr) :
    o = strictSave
        { _id := newId, user := user._id, addressId := da, items := items,
          subtotal := some (computeSubtotal items), deliveryFee := some 5000,
          total := some (computeSubtotal items + 5000), status := "Placed",
          paymentMethod := pm, paymentStatus := "pending",
          orderNotes := jsTrim notes, tracking := [], createdAt := now,
          orderNumber := candidateNumber db.orders.length,
          deliveredAt := none }
      ∧ db2.products = decAll db.products items
      ∧ ∃ post, tr = items.map (fun it => Effect.decStock it.product it.quantity)
          ++ Effect.orderSaved newId :: post := by
  unfold createOrder at h
  cases hv : createValidate db user items da pm with
  | some cm => rw [hv] at h; obtain ⟨c, m⟩ := cm; simp at h
  | none =>
    rw [hv] at h
    simp only at h
    split at h
    · exact absurd h (by simp)
    split at h
    · exact absurd h (by simp)
    split at h
    · simp only [finishCreate, CreateResult.ok.injEq] at h
      obtain ⟨ho, hdb, htr⟩ := h
      exact ⟨ho.symm, by rw [← hdb],
        ⟨[Effect.emitAdmin "newOrder",
          Effect.emitUser user._id "orderStatusUpdate",
          Effect.notifyUser user._id], by rw [← htr]; simp⟩⟩
    · split at h
      · simp only [finishCreate, CreateResult.ok.injEq] at h
        obtain ⟨ho, hdb, htr⟩ := h
        exact ⟨ho.symm, by rw [← hdb],
          ⟨[Effect.cartCleared user._id, Effect.emitAdmin "newOrder",
            Effect.emitUser user._id "orderStatusUpdate",
            Effect.notifyUser user._id], by rw [← htr]; simp⟩⟩
      · simp only [finishCreate, CreateResult.ok.injEq] at h
        obtain ⟨ho, hdb, htr⟩ := h
        exact ⟨ho.symm, by rw [← hdb],
          ⟨[Effect.emitAdmin "systemAlert", Effect.emitAdmin "newOrder",
            Effect.emitUser user._id "orderStatusUpdate",
            Effect.notifyUser user._id], by rw [← htr]; simp⟩⟩

/-- Every error of `createOrder` carries either an empty trace or only the
stock-decrement writes (no notification was emitted). -/
theorem createOrder_err_trace {db : DB} {user : ReqUser}
    {items : List OrderItem} {da : Option Nat} {pm notes : String}
    {newId now : Nat} {saveOk cartOk : Bool} {c : Nat} {m : String}
    {db2 : DB} {tr : List Effect}
    (h : createOrder db user items da pm notes newId now saveOk cartOk
          = .err c m db2 tr) :
    tr = [] ∨ tr = items.map (fun it => Effect.decStock it.product it.quantity) := by
  unfold createOrder at h
  cases hv : createValidate db user items da pm with
  | some cm =>
    rw [hv] at h; obtain ⟨cc, mm⟩ := cm
    simp only [CreateResult.err.injEq] at h
    exact Or.inl h.2.2.2.symm
  | none =>
    rw [hv] at h
    simp only at h
    split at h
    · exact absurd h (by simp)
    split at h
    · simp only [CreateResult.err.injEq] at h
      exact Or.inr h.2.2.2.symm
    split at h
    · simp [finishCreate] at h
    · split at h <;> simp [finishCreate] at h

/-- The self-healing block never touches `tracking`, `user` or
`deliveredAt`. -/
theorem healSubtotal_inv (o : OrderDoc) :
    (healSubtotal o).tracking = o.tracking ∧ (healSubtotal o).user = o.user ∧
    (healSubtotal o).deliveredAt = o.deliveredAt ∧
    (healSubtotal o).total = o.total ∧
    (healSubtotal o).deliveryFee = o.deliveryFee ∧
    (healSubtotal o).items = o.items ∧
    (healSubtotal o).addressId = o.addressId := by
  unfold healSubtotal; split_ifs <;> simp

theorem healTotal_inv (o : OrderDoc) :
    (healTotal o).tracking = o.tracking ∧ (healTotal o).user = o.user ∧
    (healTotal o).deliveredAt = o.deliveredAt ∧
    (healTotal o).subtotal = o.subtotal ∧
    (healTotal o).deliveryFee = o.deliveryFee ∧
    (healTotal o).items = o.items ∧
    (healTotal o).addressId = o.addressId := by
  unfold healTotal; split_ifs <;> simp

theorem healAddress_inv {db : DB} {o oh : OrderDoc}
    (h : healAddress db o = some oh) :
    oh.tracking = o.tracking ∧ oh.user = o.user ∧
    oh.deliveredAt = o.deliveredAt := by
  unfold healAddress at h
  split at h
  · rw [Option.some.injEq] at h
    rw [← h]
    exact ⟨rfl, rfl, rfl⟩
  · rw [Option.map_eq_some'] at h
    obtain ⟨a, _, h⟩ := h
    rw [← h]
    exact ⟨rfl, rfl, rfl⟩

theorem healOrder_inv {db : DB} {o oh : OrderDoc} (h : healOrder db o = some oh) :
    oh.tracking = o.tracking ∧ oh.user = o.user ∧ oh.deliveredAt = o.deliveredAt := by
  unfold healOrder at h
  obtain ⟨t1, u1, d1⟩ := healAddress_inv h
  obtain ⟨t2, u2, d2, -⟩ := healTotal_inv (healSubtotal o)
  obtain ⟨t3, u3, d3, -⟩ := healSubtotal_inv o
  exact ⟨by rw [t1, t2, t3], by rw [u1, u2, u3], by rw [d1, d2, d3]⟩

/-- `applyStatus` sets the `status` field to the requested status. -/
theorem applyStatus_status (o : OrderDoc) (st : String) (now : Nat) :
    (applyStatus o st now).status = st := by
  simp only [applyStatus]
  split_ifs <;> rfl

/-- `applyStatus` appends exactly one entry when the last tracking entry
does not already carry the new status, and appends nothing otherwise. -/
theorem applyStatus_tracking (o : OrderDoc) (st : String) (now : Nat) :
    (applyStatus o st now).tracking =
      if lastStatus o.tracking ≠ some st then o.tracking ++ [⟨st, now⟩]
      else o.tracking := by
  simp only [applyStatus]
  split_ifs <;> simp_all

/-- After `applyStatus` the last tracking entry always carries the new
status. -/
theorem applyStatus_lastStatus (o : OrderDoc) (st : String) (now : Nat) :
    lastStatus (applyStatus o st now).tracking = some st := by
  rw [applyStatus_tracking]
  by_cases h : lastStatus o.tracking = some st
  · simp [h]
  · simp only [h, ne_eq, not_false_iff, if_true]
    unfold lastStatus
    rw [List.getLast?_concat]
    rfl

/-- What a successful `updateOrderStatus` did: the request was from an
admin with a recognized status, the order was found and healed, the
response is the strict save of the mutated document, and the trace is the
save followed (possibly after the `Packed` notification) by the two
channel emissions. -/
theorem updateOrderStatus_ok_inv {db : DB} {user : ReqUser} {oid : Nat}
    {st : String} {now : Nat} {saveOk : Bool} {o : OrderDoc} {db2 : DB}
    {tr : List Effect}
    (h : updateOrderStatus db user oid st now saveOk = .ok o db2 tr) :
    user.isAdmin = true ∧ validStatuses.contains st = true ∧
    ∃ o0 oh, db.orders.find? (fun x => x._id == oid) = some o0 ∧
      healOrder db o0 = some oh ∧
      o = strictSave (applyStatus oh st now) ∧
      db2.orders = db.orders.map (fun x => if x._id == oid then o else x) ∧
      (∃ rest, tr = Effect.orderSaved oid :: rest) ∧
      Effect.emitAdmin "orderStatusUpdate" ∈ tr ∧
      Effect.emitUser o.user "orderStatusUpdate" ∈ tr := by
  have hadmin : user.isAdmin = true := by
    by_contra hc
    unfold updateOrderStatus at h
    rw [if_pos hc] at h
    exact absurd h (by simp)
  have hst : validStatuses.contains st = true := by
    by_contra hc
    unfold updateOrderStatus at h
    rw [if_neg (not_not_intro hadmin), if_pos hc] at h
    exact absurd h (by simp)
  unfold updateOrderStatus at h
  rw [if_neg (not_not_intro hadmin), if_neg (not_not_intro hst)] at h
  split at h
  · exact absurd h (by simp)
  case _ o0 hfind =>
    split at h
    · exact absurd h (by simp)
    case _ oh hheal =>
      split at h
      · exact absurd h (by simp)
      case _ hsave =>
        simp only [UpdResult.ok.injEq] at h
        obtain ⟨ho, hdb, htr⟩ := h
        refine ⟨hadmin, hst, o0, oh, hfind, hheal,
          ho.symm, ?_, ?_, ?_, ?_⟩
        · rw [← hdb, ← ho]
        · cases hp : (st == "Packed") <;>
            · rw [← htr]; simp [hp]
        · rw [← htr]; cases hp : (st == "Packed") <;> simp [hp]
        · rw [← htr, ho]; cases hp : (st == "Packed") <;> simp [hp]

/-- Every error of `updateOrderStatus` carries an empty effect trace. -/
theorem updateOrderStatus_err_trace {db : DB} {user : ReqUser} {oid : Nat}
    {st : String} {now : Nat} {saveOk : Bool} {c : Nat} {m : String}
    {db2 : DB} {tr : List Effect}
    (h : updateOrderStatus db user oid st now saveOk = .err c m db2 tr) :
    tr = [] := by
  unfold updateOrderStatus at h
  split at h
  · exact ((UpdResult.err.injEq _ _ _ _ _ _ _ _).mp h).2.2.2.symm
  split at h
  · exact ((UpdResult.err.injEq _ _ _ _ _ _ _ _).mp h).2.2.2.symm
  split at h
  · exact ((UpdResult.err.injEq _ _ _ _ _ _ _ _).mp h).2.2.2.symm
  split at h
  · exact ((UpdResult.err.injEq _ _ _ _ _ _ _ _).mp h).2.2.2.symm
  split at h
  · exact ((UpdResult.err.injEq _ _ _ _ _ _ _ _).mp h).2.2.2.symm
  · exact absurd h (by simp)

/-- A well-formed admin request on an existing, healable order always
succeeds (used to state that the self-healing path proceeds, and that
no-op re-application still persists and re-broadcasts). -/
theorem updateOrderStatus_ok_of {db : DB} {user : ReqUser} {oid : Nat}
    {st : String} {now : Nat} {o0 oh : OrderDoc}
    (hadmin : user.isAdmin = true) (hst : validStatuses.contains st = true)
    (hfind : db.orders.find? (fun x => x._id == oid) = some o0)
    (hheal : healOrder db o0 = some oh) :
    ∃ db2 tr, updateOrderStatus db user oid st now true
      = .ok (strictSave (applyStatus oh st now)) db2 tr := by
  have key : updateOrderStatus db user oid st now true
      = .ok (strictSave (applyStatus oh st now))
        { db with orders := db.orders.map (fun x =>
            if x._id == oid then strictSave (applyStatus oh st now) else x) }
        ((if st == "Packed" then
            [Effect.orderSaved oid,
             Effect.notifyUser (strictSave (applyStatus oh st now)).user]
          else [Effect.orderSaved oid]) ++
          [Effect.emitAdmin "orderStatusUpdate",
           Effect.emitUser (strictSave (applyStatus oh st now)).user
             "orderStatusUpdate"]) := by
    unfold updateOrderStatus
    rw [if_neg (not_not_intro hadmin), if_neg (not_not_intro hst), hfind]
    cases hp : (st == "Packed") <;> simp [hheal, hp]
  exact ⟨_, _, key⟩

/-- The subtotal heal recomputes a falsy subtotal from the items. -/
theorem healSubtotal_subtotal (o : OrderDoc) :
    (healSubtotal o).subtotal =
      if jsFalsyOpt o.subtotal then some (computeSubtotal o.items)
      else o.subtotal := by
  unfold healSubtotal; split_ifs <;> simp

/-- The total heal recomputes a falsy total from the (already healed)
subtotal and the delivery fee. -/
theorem healTotal_total (o : OrderDoc) :
    (healTotal o).total =
      if jsFalsyOpt o.total then some (o.subtotal.getD 0 + jsOr o.deliveryFee 5000)
      else o.total := by
  unfold healTotal; split_ifs <;> simp

/-- The address heal preserves the monetary fields. -/
theorem healAddress_money {db : DB} {o oh : OrderDoc}
    (h : healAddress db o = some oh) :
    oh.subtotal = o.subtotal ∧ oh.total = o.total := by
  unfold healAddress at h
  split at h
  · rw [Option.some.injEq] at h
    rw [← h]; exact ⟨rfl, rfl⟩
  · rw [Option.map_eq_some'] at h
    obtain ⟨a, _, h⟩ := h
    rw [← h]; exact ⟨rfl, rfl⟩

/-- The address heal substitutes the owner's first stored address when
`addressId` is missing. -/
theorem healAddress_subst {db : DB} {o : OrderDoc} {a : AddressRec}
    (hnone : o.addressId = none)
    (hfind : db.addresses.find? (fun x => x.user == o.user) = some a) :
    healAddress db o = some { o with addressId := some a._id } := by
  unfold healAddress
  rw [hnone, hfind]
  rfl

/-- Under a persistent order-number collision the pre-save hook loops: no
fuel suffices to make it return, because a collision iteration leaves
`attempts` untouched and re-derives the same candidate. -/
theorem hookRun_collide_none : ∀ (n : Nat) (s : HookState),
    hookRun (dbBehavior collideOrders) n s = none := by
  have hb : ∀ i, dbBehavior collideOrders i = AttemptOutcome.ok 1 true :=
    fun _ => rfl
  have hstep : ∀ s, hookStep (dbBehavior collideOrders) s
      = Sum.inr { s with iter := s.iter + 1 } := by
    intro s
    unfold hookStep
    rw [hb s.iter]
    rfl
  intro n
  induction n with
  | zero => intro s; rfl
  | succ k ih =>
    intro s
    show (match hookStep (dbBehavior collideOrders) s with
      | Sum.inl r => some r
      | Sum.inr s' => hookRun (dbBehavior collideOrders) k s') = none
    rw [hstep s]
    exact ih _

/-! ## Claim theorems -/

/-- C2 (code bug): the claim (and the hook's own `maxAttempts`/`while
(attempts < maxAttempts)` machinery and its "after multiple attempts"
error) intend a retry bound of 3 with a short delay.  But in
`orderSchema.pre('save')` the `attempts++` and the 100ms delay sit only in
the `catch` block, so a pure uniqueness collision consumes no attempt and
incurs no delay.  Over a store whose single order already carries the
derived candidate `ORD-000002`, the loop re-derives the same candidate
forever: no amount of fuel makes it return, and after 50 iterations
`attempts` still reads 0.  Only throwing iterations are bounded: 3 throws
produce the exhaustion error (2 do not). -/
theorem C2_hook_collision_bug :
    (∀ n s, hookRun (dbBehavior collideOrders) n s = none) ∧
    (hookStateAfter (dbBehavior collideOrders) 50 hookStart).attempts = 0 ∧
    collideOrders.length = 1 ∧
    (collideOrders.map (fun o => o.orderNumber)) = ["ORD-000002"] ∧
    candidateNumber collideOrders.length = "ORD-000002" ∧
    hookRun throwsBehavior 3 hookStart = some HookResult.exhausted ∧
    hookRun throwsBehavior 2 hookStart = none := by
  refine ⟨hookRun_collide_none, ?_, ?_, ?_, ?_, ?_, ?_⟩ <;> decide

/-- C3 (counterexample): after a successful `createOrder` (the one of
`src/unnamed/part_002`, which initializes `tracking` to the empty list)
the order's status is `Placed` but its tracking log has no last entry at
all, so "the last tracking entry's status equals the order's current
status" fails right after creation. -/
theorem C3_counterexample :
    (createResultOrder demoCreateRun).map
      (fun o => (lastStatus o.tracking, o.status)) = some (none, "Placed") := by
  decide

/-- C3 (amended): the tracking log only ever grows by appending at the
end; after every successful `updateOrderStatus` the last tracking entry's
status equals the order's current status; but `createOrder` initializes
`tracking` to the empty list, so immediately after creation there is no
last entry and the last-entry invariant holds only from the first status
update onwards. -/
theorem C3_tracking_amended :
    (∀ db user items da pm notes newId now saveOk cartOk o db2 tr,
       createOrder db user items da pm notes newId now saveOk cartOk
         = CreateResult.ok o db2 tr → o.tracking = [])
    ∧ (∀ db user oid st now saveOk o0 o db2 tr,
       db.orders.find? (fun x => x._id == oid) = some o0 →
       updateOrderStatus db user oid st now saveOk = UpdResult.ok o db2 tr →
       (∃ app, o.tracking = o0.tracking ++ app) ∧
       lastStatus o.tracking = some o.status) := by
  constructor
  · intro db user items da pm notes newId now saveOk cartOk o db2 tr h
    obtain ⟨ho, -, -⟩ := createOrder_ok_inv h
    rw [ho]
    rfl
  · intro db user oid st now saveOk o0 o db2 tr hfind h
    obtain ⟨-, -, o0', oh, hfind', hheal, ho, -, -, -, -⟩ :=
      updateOrderStatus_ok_inv h
    have he : o0' = o0 := Option.some.inj (hfind'.symm.trans hfind)
    have htr : o.tracking = (applyStatus oh st now).tracking := by rw [ho]; rfl
    have hs : o.status = st := by
      rw [ho, show (strictSave (applyStatus oh st now)).status
        = (applyStatus oh st now).status from rfl, applyStatus_status]
    obtain ⟨hohtr, -, -⟩ := healOrder_inv hheal
    rw [he] at hohtr
    constructor
    · rw [htr, applyStatus_tracking, hohtr]
      by_cases hlast : lastStatus o0.tracking = some st
      · rw [if_neg (not_not_intro hlast)]
        exact ⟨[], (List.append_nil _).symm⟩
      · rw [if_pos hlast]
        exact ⟨[⟨st, now⟩], rfl⟩
    · rw [htr, hs, applyStatus_lastStatus]

/-- C5 (counterexample): the claim says an admin re-applying the order's
current status appends no tracking entry.  The no-op guard actually
compares against the LAST TRACKING ENTRY, not the `status` field: for the
freshly created order (status `Placed`, empty tracking) a re-application
of `Placed` does append an entry (tracking grows 0 → 1). -/
theorem C5_counterexample :
    demoDB2.orders.find? (fun x => x._id == 100) = some demoFreshOrder ∧
    demoFreshOrder.status = "Placed" ∧
    demoFreshOrder.tracking.length = 0 ∧
    (updResultOrder (updateOrderStatus demoDB2 adminUser 100 "Placed" 7 true)).map
      (fun o => o.tracking.length) = some 1 := by
  refine ⟨rfl, rfl, rfl, ?_⟩
  decide

/-- C5 (amended): when `newStatus` equals the status carried by the LAST
TRACKING ENTRY of the order, an admin `updateOrderStatus` appends no new
tracking entry, but the order is still persisted (written back into the
store), still broadcast to the admin room and the owner's channel, and
still returned to the caller.  (When the tracking log is empty or its last
entry differs from the current `status` field — as for orders fresh from
`createOrder` — a same-status update does append an entry, see the
counterexample.) -/
theorem C5_noop_amended (db : DB) (user : ReqUser) (oid : Nat) (st : String)
    (now : Nat) (o0 oh : OrderDoc)
    (hadmin : user.isAdmin = true)
    (hst : validStatuses.contains st = true)
    (hfind : db.orders.find? (fun x => x._id == oid) = some o0)
    (hheal : healOrder db o0 = some oh)
    (hlast : lastStatus o0.tracking = some st) :
    ∃ o db2 tr, updateOrderStatus db user oid st now true = UpdResult.ok o db2 tr ∧
      o.tracking = o0.tracking ∧
      db2.orders = db.orders.map (fun x => if x._id == oid then o else x) ∧
      Effect.emitAdmin "orderStatusUpdate" ∈ tr ∧
      Effect.emitUser o.user "orderStatusUpdate" ∈ tr := by
  obtain ⟨db2, tr, key⟩ :=
    @updateOrderStatus_ok_of db user oid st now o0 oh hadmin hst hfind hheal
  obtain ⟨-, -, o0', oh', hfind', hheal', -, hdb, -, hadm, husr⟩ :=
    updateOrderStatus_ok_inv key
  refine ⟨_, db2, tr, key, ?_, hdb, hadm, husr⟩
  obtain ⟨hohtr, -, -⟩ := healOrder_inv hheal
  rw [show (strictSave (applyStatus oh st now)).tracking
    = (applyStatus oh st now).tracking from rfl, applyStatus_tracking, hohtr]
  rw [if_neg (not_not_intro hlast)]

/-- C6 (code_bug): transitioning the freshly created `Placed` order to
`Delivered` assigns `deliveredAt` on the in-memory document, but
`deliveredAt` is not a path of `orderSchema` (`src/models/Order.js` lines
3-37), so the mongoose strict save drops it: the persisted (and returned,
re-fetched) order has no `deliveredAt`.  The tracking log ends up with 1
entry, not 2, because `createOrder` seeds no `Placed` entry.  (The code's
own `getMetrics` aggregates `$deliveredAt`, so the spec's behavior is the
evident intent.) -/
theorem C6_delivered_bug :
    (applyStatus demoFreshOrder "Delivered" 9).deliveredAt = some 9 ∧
    orderSchemaPaths.contains "deliveredAt" = false ∧
    demoFreshOrder.status = "Placed" ∧
    (updResultOrder (updateOrderStatus demoDB2 adminUser 100 "Delivered" 9 true)).map
      (fun o => (o.deliveredAt, o.tracking.length)) = some (none, 1) := by
  refine ⟨rfl, rfl, rfl, ?_⟩
  decide

/-- C7: a non-admin calling `updateOrderStatus` or `deleteOrder` always
fails with 403 (`Admin access required`) before anything else happens, and
a non-admin calling `getOrder` or `trackOrder` on an order owned by a
different user fails with 403 (`Unauthorized`). -/
theorem C7_authorization (db : DB) (user : ReqUser) (oid : Nat)
    (onum : String) (st : String) (now : Nat) (saveOk : Bool)
    (h : user.isAdmin = false) :
    updateOrderStatus db user oid st now saveOk
      = UpdResult.err 403 "Admin access required" db [] ∧
    deleteOrder db user oid = UpdResult.err 403 "Admin access required" db [] ∧
    (∀ o, db.orders.find? (fun x => x._id == oid) = some o →
      o.user ≠ user._id →
      getOrder db user oid = Except.error (403, "Unauthorized")) ∧
    (∀ o, db.orders.find? (fun x => x.orderNumber == onum) = some o →
      o.user ≠ user._id →
      trackOrder db user onum = Except.error (403, "Unauthorized")) := by
  have hna : ¬ (user.isAdmin = true) := by simp [h]
  refine ⟨?_, ?_, ?_, ?_⟩
  · unfold updateOrderStatus
    rw [if_pos hna]
  · unfold deleteOrder
    rw [if_pos hna]
  · intro o hfind hneq
    unfold getOrder
    simp only [hfind]
    rw [if_pos ⟨hna, hneq⟩]
  · intro o hfind hneq
    unfold trackOrder
    simp only [hfind]
    rw [if_pos ⟨hna, hneq⟩]

/-- C7 witness: the non-admin `otherBuyer` (id 2) is refused on all four
operations against the store holding order 100 owned by user 1. -/
theorem C7_authorization_witness :
    updateOrderStatus demoDB2 otherBuyer 100 "Packed" 3 true
      = UpdResult.err 403 "Admin access required" demoDB2 [] ∧
    deleteOrder demoDB2 otherBuyer 100
      = UpdResult.err 403 "Admin access required" demoDB2 [] ∧
    getOrder demoDB2 otherBuyer 100 = Except.error (403, "Unauthorized") ∧
    trackOrder demoDB2 otherBuyer "ORD-000001"
      = Except.error (403, "Unauthorized") := by
  obtain ⟨h1, h2, h3, h4⟩ :=
    C7_authorization demoDB2 otherBuyer 100 "ORD-000001" "Packed" 3 true rfl
  exact ⟨h1, h2, h3 demoFreshOrder (by decide) (by decide),
    h4 demoFreshOrder (by decide) (by decide)⟩

/-- C1: when the request passes the earlier validations (valid payment
method, non-empty well-formed items, all products found) and some
requested item's quantity exceeds that product's stock, `createOrder`
answers 400 `Insufficient stock` with the store untouched; and every
successful `createOrder` leaves each product's stock decreased by exactly
the total quantity ordered for it (`Σ(ordered quantities)`, which for the
enforced duplicate-free item lists is the single item's quantity). -/
theorem C1_stock (db : DB) (user : ReqUser) (items : List OrderItem)
    (da : Option Nat) (pm notes : String) (newId now : Nat)
    (saveOk cartOk : Bool) :
    (validPaymentMethods.contains pm = true →
     items ≠ [] →
     (∀ it ∈ items, 1 ≤ it.quantity ∧ 0 ≤ it.price) →
     (db.products.filter (fun p =>
        (items.map (fun it => it.product)).contains p._id)).length
        = (items.map (fun it => it.product)).length →
     (∃ it ∈ items, ∃ p, lookupProduct db.products it.product = some p ∧
        p.stock < it.quantity) →
     createOrder db user items da pm notes newId now saveOk cartOk
        = CreateResult.err 400 "Insufficient stock for product" db [])
    ∧ (∀ o db2 tr,
        createOrder db user items da pm notes newId now saveOk cartOk
          = CreateResult.ok o db2 tr →
        ∀ pid, lookupProduct db2.products pid
          = (lookupProduct db.products pid).map (fun p =>
              { p with stock := p.stock - orderedQty items pid })) := by
  constructor
  · intro h1 h2 h3 h4 h5
    have hins : insufficientStock db.products items = true := by
      obtain ⟨it, hit, p, hp, hlt⟩ := h5
      unfold insufficientStock
      rw [List.any_eq_true]
      refine ⟨it, hit, ?_⟩
      have hc : (items.map (fun i => i.product)).contains it.product = true := by
        have : it.product ∈ items.map (fun i => i.product) :=
          List.mem_map_of_mem _ hit
        simpa using this
      rw [find?_filter_of_contains db.products _ _ hc]
      unfold lookupProduct at hp
      rw [hp]
      simpa using hlt
    have hval : createValidate db user items da pm
        = some (400, "Insufficient stock for product") := by
      unfold createValidate
      rw [if_neg (not_not_intro h1)]
      rw [if_neg (show ¬ (items.isEmpty = true) by
        simpa [List.isEmpty_iff] using h2)]
      rw [if_neg (show ¬ (items.any (fun it =>
          decide (it.quantity < 1) || decide (it.price < 0)) = true) from ?_)]
      · rw [if_neg (not_not_intro h4), if_pos hins]
      · intro hany
        rw [List.any_eq_true] at hany
        obtain ⟨it, hit, hbad⟩ := hany
        obtain ⟨hq, hpr⟩ := h3 it hit
        simp only [Bool.or_eq_true, decide_eq_true_eq] at hbad
        rcases hbad with hb | hb <;> omega
    unfold createOrder
    rw [hval]
  · intro o db2 tr h pid
    obtain ⟨-, hdb, -⟩ := createOrder_ok_inv h
    rw [hdb, lookup_decAll]

/-- C1 witness: requesting 9 of product 10 (stock 5) fails with
`Insufficient stock` leaving `demoDB` unchanged; and the successful demo
creation leaves product 10 with stock decreased by the ordered quantity. -/
theorem C1_stock_witness :
    createOrder demoDB buyer [{ product := 10, quantity := 9, price := 1000 }]
        (some 20) "Pay on Delivery" "" 100 5 true true
      = CreateResult.err 400 "Insufficient stock for product" demoDB [] ∧
    lookupProduct demoDB2.products 10
      = (lookupProduct demoDB.products 10).map (fun p =>
          { p with stock := p.stock - orderedQty demoItems 10 }) := by
  constructor
  · exact (C1_stock demoDB buyer [{ product := 10, quantity := 9, price := 1000 }]
      (some 20) "Pay on Delivery" "" 100 5 true true).1
      (by decide) (by decide) (by decide) (by decide)
      ⟨{ product := 10, quantity := 9, price := 1000 }, by decide, prodA,
        by decide, by decide⟩
  · exact (C1_stock demoDB buyer demoItems (some 20) "Pay on Delivery" ""
      100 5 true true).2 demoFreshOrder demoDB2
      [Effect.decStock 10 2, Effect.orderSaved 100, Effect.cartCleared 1,
       Effect.emitAdmin "newOrder", Effect.emitUser 1 "orderStatusUpdate",
       Effect.notifyUser 1] (by decide) 10

/-- C4: every order produced by a successful `createOrder` satisfies
`subtotal = Σ(price × quantity)`, `deliveryFee = 5000`,
`total = subtotal + deliveryFee` and `status = Placed`; the spec scenario
(one product, qty 2, price 1000) yields subtotal 2000, total 7000, status
`Placed`, order number `ORD-000001`. -/
theorem C4_totals :
    (∀ db user items da pm notes newId now saveOk cartOk o db2 tr,
       createOrder db user items da pm notes newId now saveOk cartOk
         = CreateResult.ok o db2 tr →
       o.subtotal = some (computeSubtotal items) ∧
       o.deliveryFee = some 5000 ∧
       o.total = some (computeSubtotal items + 5000) ∧
       o.status = "Placed")
    ∧ (createResultOrder demoCreateRun).map
        (fun o => (o.subtotal, o.total, o.status, o.orderNumber))
        = some (some 2000, some 7000, "Placed", "ORD-000001") := by
  constructor
  · intro db user items da pm notes newId now saveOk cartOk o db2 tr h
    obtain ⟨ho, -, -⟩ := createOrder_ok_inv h
    rw [ho]
    exact ⟨rfl, rfl, rfl, rfl⟩
  · decide

/-- C4 witness: the totals law instantiated at the demo creation. -/
theorem C4_totals_witness :
    demoFreshOrder.subtotal = some (computeSubtotal demoItems) ∧
    demoFreshOrder.deliveryFee = some 5000 ∧
    demoFreshOrder.total = some (computeSubtotal demoItems + 5000) ∧
    demoFreshOrder.status = "Placed" :=
  C4_totals.1 demoDB buyer demoItems (some 20) "Pay on Delivery" "" 100 5
    true true demoFreshOrder demoDB2
    [Effect.decStock 10 2, Effect.orderSaved 100, Effect.cartCleared 1,
     Effect.emitAdmin "newOrder", Effect.emitUser 1 "orderStatusUpdate",
     Effect.notifyUser 1] (by decide)

/-- C8: for `createOrder` and `updateOrderStatus`, every error result
(including a failed `order.save()`) carries no notification effect at all,
and every success trace consists of a prefix free of notification effects
followed by the persistence of the order and only then the fan-out — i.e.
notifications happen strictly after successful persistence, never when
persistence failed. -/
theorem C8_notify_after_persist :
    (∀ db user items da pm notes newId now saveOk cartOk,
      (∀ c m db2 tr, createOrder db user items da pm notes newId now saveOk cartOk
          = CreateResult.err c m db2 tr → tr.filter isNotifyEffect = []) ∧
      (∀ o db2 tr, createOrder db user items da pm notes newId now saveOk cartOk
          = CreateResult.ok o db2 tr →
        ∃ pre post, tr = pre ++ Effect.orderSaved o._id :: post ∧
          pre.filter isNotifyEffect = []))
    ∧ (∀ db user oid st now saveOk,
      (∀ c m db2 tr, updateOrderStatus db user oid st now saveOk
          = UpdResult.err c m db2 tr → tr.filter isNotifyEffect = []) ∧
      (∀ o db2 tr, updateOrderStatus db user oid st now saveOk
          = UpdResult.ok o db2 tr →
        ∃ pre post, tr = pre ++ Effect.orderSaved oid :: post ∧
          pre.filter isNotifyEffect = [])) := by
  have hdecfilter : ∀ items : List OrderItem,
      (items.map (fun it => Effect.decStock it.product it.quantity)).filter
        isNotifyEffect = [] := by
    intro items
    rw [List.filter_eq_nil_iff]
    intro a ha
    rw [List.mem_map] at ha
    obtain ⟨it, -, he⟩ := ha
    rw [← he]
    simp [isNotifyEffect]
  constructor
  · intro db user items da pm notes newId now saveOk cartOk
    constructor
    · intro c m db2 tr h
      rcases createOrder_err_trace h with h' | h'
      · rw [h']; rfl
      · rw [h']; exact hdecfilter items
    · intro o db2 tr h
      obtain ⟨ho, -, post, htr⟩ := createOrder_ok_inv h
      refine ⟨items.map (fun it => Effect.decStock it.product it.quantity),
        post, ?_, hdecfilter items⟩
      rw [ho]
      exact htr
  · intro db user oid st now saveOk
    constructor
    · intro c m db2 tr h
      rw [updateOrderStatus_err_trace h]
      rfl
    · intro o db2 tr h
      obtain ⟨-, -, _, _, -, -, -, -, ⟨rest, htr⟩, -, -⟩ :=
        updateOrderStatus_ok_inv h
      exact ⟨[], rest, by rw [htr]; rfl, rfl⟩

/-- C8 witness: a creation whose `order.save()` fails emits nothing (the
trace holds only the stock write), and the successful demo status update's
trace starts with the persistence. -/
theorem C8_notify_after_persist_witness :
    ([Effect.decStock 10 2] : List Effect).filter isNotifyEffect = [] ∧
    (∃ pre post, ([Effect.orderSaved 100, Effect.emitAdmin "orderStatusUpdate",
        Effect.emitUser 1 "orderStatusUpdate"] : List Effect)
        = pre ++ Effect.orderSaved 100 :: post ∧
      pre.filter isNotifyEffect = []) := by
  constructor
  · exact (C8_notify_after_persist.1 demoDB buyer demoItems (some 20)
      "Pay on Delivery" "" 100 5 false true).1 400 "order save failed"
      demoDBdec [Effect.decStock 10 2] (by decide)
  · have h := (C8_notify_after_persist.2 demoDB2 adminUser 100 "Delivered" 9 true).2
      deliveredOrder demoDB3 demoUpdTrace (by decide)
    simpa [demoUpdTrace] using h

/-- C3 witness: the amended tracking law instantiated at the demo
creation (empty tracking) and the demo `Delivered` update (one appended
entry whose status is the new current status). -/
theorem C3_tracking_amended_witness :
    demoFreshOrder.tracking = ([] : List TrackEntry) ∧
    ((∃ app, deliveredOrder.tracking = demoFreshOrder.tracking ++ app) ∧
      lastStatus deliveredOrder.tracking = some deliveredOrder.status) := by
  constructor
  · exact C3_tracking_amended.1 demoDB buyer demoItems (some 20)
      "Pay on Delivery" "" 100 5 true true demoFreshOrder demoDB2
      demoCreateTrace (by decide)
  · exact C3_tracking_amended.2 demoDB2 adminUser 100 "Delivered" 9 true
      demoFreshOrder deliveredOrder demoDB3 demoUpdTrace (by decide) (by decide)

/-- C5 witness: re-applying `Packed` to the order whose tracking log
already ends in `Packed` returns the order with its tracking unchanged. -/
theorem C5_noop_amended_witness :
    (updResultOrder (updateOrderStatus packedDB adminUser 60 "Packed" 9 true)).map
      (fun o => o.tracking) = some packedOrder.tracking := by
  obtain ⟨o, db2, tr, hok, htr, -, -, -⟩ :=
    C5_noop_amended packedDB adminUser 60 "Packed" 9 packedOrder packedOrder
      rfl (by decide) (by decide) (by decide) (by decide)
  rw [hok]
  simp [updResultOrder, htr]

/-- C9: for an otherwise valid admin status update on a stored order
lacking `subtotal`, `total`, or a valid `addressId`, the self-healing
block recomputes `subtotal` from the items, recomputes `total` as the
(possibly recomputed) subtotal plus the delivery fee (the stored fee, or
5000 when absent), substitutes the owning user's first available address,
and the update then proceeds to a successful transition instead of
failing. -/
theorem C9_self_heal (db : DB) (user : ReqUser) (oid : Nat) (st : String)
    (now : Nat) (o0 : OrderDoc)
    (hadmin : user.isAdmin = true)
    (hst : validStatuses.contains st = true)
    (hfind : db.orders.find? (fun x => x._id == oid) = some o0)
    (haddr : o0.addressId = none →
      ∃ a, db.addresses.find? (fun x => x.user == o0.user) = some a) :
    ∃ oh, healOrder db o0 = some oh ∧
      (jsFalsyOpt o0.subtotal = true →
        oh.subtotal = some (computeSubtotal o0.items)) ∧
      (jsFalsyOpt o0.total = true →
        oh.total = some ((if jsFalsyOpt o0.subtotal then computeSubtotal o0.items
          else o0.subtotal.getD 0) + jsOr o0.deliveryFee 5000)) ∧
      (∀ a, o0.addressId = none →
        db.addresses.find? (fun x => x.user == o0.user) = some a →
        oh.addressId = some a._id) ∧
      (∃ res db2 tr, updateOrderStatus db user oid st now true
        = UpdResult.ok res db2 tr) := by
  obtain ⟨t1, u1, d1, tot1, fee1, it1, ad1⟩ := healSubtotal_inv o0
  obtain ⟨t2, u2, d2, sub2, fee2, it2, ad2⟩ := healTotal_inv (healSubtotal o0)
  have hu : (healTotal (healSubtotal o0)).user = o0.user := by rw [u2, u1]
  have had : (healTotal (healSubtotal o0)).addressId = o0.addressId := by
    rw [ad2, ad1]
  have hsubgoal : jsFalsyOpt o0.subtotal = true →
      (healTotal (healSubtotal o0)).subtotal = some (computeSubtotal o0.items) := by
    intro hsub
    rw [sub2, healSubtotal_subtotal, if_pos hsub]
  have htotgoal : jsFalsyOpt o0.total = true →
      (healTotal (healSubtotal o0)).total
        = some ((if jsFalsyOpt o0.subtotal then computeSubtotal o0.items
            else o0.subtotal.getD 0) + jsOr o0.deliveryFee 5000) := by
    intro htot
    rw [healTotal_total, tot1, fee1, if_pos htot, healSubtotal_subtotal]
    cases hs : jsFalsyOpt o0.subtotal <;> simp [hs]
  cases hcase : o0.addressId with
  | some x =>
    have hha : healAddress db (healTotal (healSubtotal o0))
        = some (healTotal (healSubtotal o0)) := by
      unfold healAddress
      rw [had, hcase]
    refine ⟨healTotal (healSubtotal o0), hha, hsubgoal, htotgoal, ?_, ?_⟩
    · intro a hnone _
      exact absurd hnone (by simp)
    · obtain ⟨db2, tr, hk⟩ :=
        @updateOrderStatus_ok_of db user oid st now o0 _ hadmin hst hfind hha
      exact ⟨_, db2, tr, hk⟩
  | none =>
    obtain ⟨a0, hfa0⟩ := haddr hcase
    have hnone2 : (healTotal (healSubtotal o0)).addressId = none := by
      rw [had, hcase]
    have hfa2 : db.addresses.find? (fun x =>
        x.user == (healTotal (healSubtotal o0)).user) = some a0 := by
      rw [hu]
      exact hfa0
    have hha := healAddress_subst hnone2 hfa2
    refine ⟨_, hha, hsubgoal, htotgoal, ?_, ?_⟩
    · intro a _ hfa
      have he : a0 = a := Option.some.inj (hfa0.symm.trans hfa)
      rw [← he]
    · obtain ⟨db2, tr, hk⟩ :=
        @updateOrderStatus_ok_of db user oid st now o0 _ hadmin hst hfind hha
      exact ⟨_, db2, tr, hk⟩

/-- C9 witness: the legacy order (no subtotal, no total, no delivery fee,
no address) heals to subtotal 2000, total 7000, the owner's first address,
and its `Packed` transition succeeds. -/
theorem C9_self_heal_witness :
    (∃ oh, healOrder legacyDB legacyOrder = some oh ∧
      oh.subtotal = some 2000 ∧ oh.total = some 7000 ∧
      oh.addressId = some 20) ∧
    (∃ res db2 tr, updateOrderStatus legacyDB adminUser 50 "Packed" 8 true
      = UpdResult.ok res db2 tr) := by
  obtain ⟨oh, hheal, hsub, htot, haddr, hrest⟩ :=
    C9_self_heal legacyDB adminUser 50 "Packed" 8 legacyOrder rfl
      (by decide) (by decide) (fun _ => ⟨addr1, by decide⟩)
  refine ⟨⟨oh, hheal, ?_, ?_, ?_⟩, hrest⟩
  · rw [hsub (by decide)]
    decide
  · rw [htot (by decide)]
    decide
  · exact haddr addr1 rfl (by decide)

/-- C10: once the order has been persisted, a failure while clearing the
user's cart does not fail the creation: the error is caught, a
`systemAlert` is emitted to the admin room, and the call still returns the
created order with the 201 success result (the full fan-out still
happens). -/
theorem C10_cart_fail (db : DB) (user : ReqUser) (items : List OrderItem)
    (da : Option Nat) (pm notes : String) (newId now : Nat) (cr : CartRec)
    (hval : createValidate db user items da pm = none)
    (hnocol : (db.orders.any (fun o => o.orderNumber
        == candidateNumber db.orders.length)) = false)
    (hcart : db.carts.find? (fun c2 => c2.user == user._id) = some cr) :
    ∃ o db2 tr, createOrder db user items da pm notes newId now true false
        = CreateResult.ok o db2 tr ∧
      Effect.emitAdmin "systemAlert" ∈ tr ∧
      Effect.emitAdmin "newOrder" ∈ tr ∧
      Effect.emitUser user._id "orderStatusUpdate" ∈ tr ∧
      Effect.orderSaved newId ∈ tr := by
  unfold createOrder
  rw [hval]
  dsimp only
  rw [if_neg (show ¬ ((db.orders.any (fun o => o.orderNumber
      == candidateNumber db.orders.length)) = true) by rw [hnocol]; simp)]
  rw [if_neg (show ¬ (¬ (true = true)) by simp)]
  rw [hcart]
  dsimp only
  simp only [finishCreate, Bool.false_eq_true, if_false]
  refine ⟨_, _, _, rfl, ?_, ?_, ?_, ?_⟩ <;> simp

/-- C10 witness: the demo creation with a failing cart clear still
succeeds and alerts the admin room. -/
theorem C10_cart_fail_witness :
    ∃ o db2 tr, createOrder demoDB buyer demoItems (some 20)
        "Pay on Delivery" "" 100 5 true false
        = CreateResult.ok o db2 tr ∧
      Effect.emitAdmin "systemAlert" ∈ tr ∧
      Effect.emitAdmin "newOrder" ∈ tr ∧
      Effect.emitUser buyer._id "orderStatusUpdate" ∈ tr ∧
      Effect.orderSaved 100 ∈ tr :=
  C10_cart_fail demoDB buyer demoItems (some 20) "Pay on Delivery" "" 100 5
    cart1 (by decide) (by decide) (by decide)

end PulseParcel
